import Mathlib

/-!
Shallow embedding of the Trail_Tail deterministic content engine
(`src/backend/app/providers/mock/*.py` and
`src/backend/app/providers/interfaces/base_provider.py`), together with
proofs settling the specification claims about it.

Conventions of the embedding:
* Python's process-global `random` module is modelled as an explicit state
  of type `RNG` threaded through every operation.  The Mersenne-Twister
  internals of CPython are library code, not part of this repository, so
  the generator is modelled by a simple deterministic congruential step;
  what matters for the claims is which operations draw from the shared
  state and which ones overwrite it via `random.seed`.
* Machine integers are `Nat`/`Int`; one-decimal floats (`round(x, 1)`)
  are represented exactly as integer tenths.
* Fallible Python code (`int(...)` raising `ValueError`, provider error
  wrapping) returns `Except PyErr`.
-/

namespace TrailTail

/-! ### Model of the `random` module (process-global generator) -/

/-- State of Python's process-global random generator. -/
abbrev RNG := Nat

/-- One step of the modelled generator (a linear congruential step,
standing in for CPython's Mersenne Twister, which is library code). -/
def rngNext (s : RNG) : RNG := (1103515245 * s + 12345) % 2147483648

/-- Python `random.seed(n)`: overwrite the global state from an integer. -/
def rngSeed (n : Nat) : RNG := n

/-- Draw a value in `[0, n)` (the primitive under `random`'s methods). -/
def randBelow (n : Nat) (s : RNG) : Nat × RNG :=
  let s2 := rngNext s
  (s2 % n, s2)

/-- Python `random.randint(a, b)`: uniform integer in `[a, b]`, both ends included. -/
def randint (a b : Nat) (s : RNG) : Nat × RNG :=
  let s2 := rngNext s
  (a + s2 % (b - a + 1), s2)

/-- Python `random.choice(l)`: an element of `l` picked by the generator. -/
def pyChoice [Inhabited α] (l : List α) (s : RNG) : α × RNG :=
  let p := randBelow l.length s
  (l.getD p.1 default, p.2)

/-- Python `random.sample(pool, k)`, selection without replacement: repeatedly
pick an index, move the element out, and plug the hole with the last
element of the shrinking pool (CPython's pool algorithm for list input).
Structural recursion on the remaining count `k`. -/
def pySampleAux [Inhabited α] : Nat → List α → List α → RNG → List α × RNG
  | 0, _, acc, s => (acc.reverse, s)
  | k + 1, pool, acc, s =>
    match pool with
    | [] => (acc.reverse, s)
    | x :: rest =>
      let p := randBelow (x :: rest).length s
      let chosen := (x :: rest).getD p.1 default
      let lastElem := (x :: rest).getD ((x :: rest).length - 1) default
      pySampleAux k (((x :: rest).set p.1 lastElem).dropLast) (chosen :: acc) p.2

/-- Python `random.sample(pool, k)` (callers in this repository always pass
`k ≤ pool.length`). -/
def pySample [Inhabited α] (pool : List α) (k : Nat) (s : RNG) : List α × RNG :=
  pySampleAux k pool [] s

/-- Python `random.shuffle(l)`: Fisher–Yates, swapping position `i` with a drawn
position `j ≤ i`, for `i` from the top down. -/
def pyShuffleAux [Inhabited α] : List α → Nat → RNG → List α × RNG
  | arr, 0, s => (arr, s)
  | arr, i + 1, s =>
    let p := randBelow (i + 2) s
    let a := arr.getD (i + 1) default
    let b := arr.getD p.1 default
    pyShuffleAux ((arr.set (i + 1) b).set p.1 a) i p.2

/-- Python `random.shuffle(l)`. -/
def pyShuffle [Inhabited α] (l : List α) (s : RNG) : List α × RNG :=
  pyShuffleAux l (l.length - 1) s

/-! ### String helpers used by the providers -/

/-- Python `text.lower()` (the lexicons are ASCII). -/
def pyLower (s : String) : String := String.mk (s.data.map Char.toLower)

/-- Worker for substring containment on character lists. -/
def occursInAux (needle : List Char) : List Char → Bool
  | [] => needle.isEmpty
  | c :: rest => needle.isPrefixOf (c :: rest) || occursInAux needle rest

/-- Python `needle in hay` on strings: substring containment. -/
def occursIn (needle hay : String) : Bool := occursInAux needle.data hay.data

/-- Python `word in content.lower()`, the test used by the safety classifier. -/
def pyInLower (word content : String) : Bool := occursIn word (pyLower content)

/-- Python `s[-n:]`: the last `n` characters (whole string when shorter). -/
def strLastN (n : Nat) (s : String) : String :=
  String.mk (s.data.drop (s.data.length - n))

/-- Sum of `ord(c)` over the characters of `s`
(`sum(ord(c) for c in route_id)`). -/
def charSum (s : String) : Nat := (s.data.map Char.toNat).sum

/-- Worker for `str.replace`: scan left to right, substituting each match
of the nonempty pattern.  Structural recursion on a fuel argument (each
step consumes at least one input character, so `fuel = input length`
suffices); this keeps the definition kernel-reducible. -/
def replaceAllAux (pat rep : List Char) : Nat → List Char → List Char
  | 0, l => l
  | _ + 1, [] => []
  | fuel + 1, c :: rest =>
    if pat.isPrefixOf (c :: rest) then
      rep ++ replaceAllAux pat rep fuel ((c :: rest).drop pat.length)
    else
      c :: replaceAllAux pat rep fuel rest

/-- Python `s.replace(pat, rep)` (all occurrences, left to right; the
patterns used in this repository, `"family_"` and `"user_"`, are
nonempty). -/
def pyReplace (s pat rep : String) : String :=
  match pat.data with
  | [] => s
  | _ :: _ => String.mk (replaceAllAux pat.data rep.data s.data.length s.data)

/-! ### Error model -/

/-- The Python exceptions relevant to the claims: `ValueError` from
`int(...)`, and the repository's `ProviderError`
(`app/core/errors/exceptions.py`). -/
inductive PyErr where
  | valueError (message : String)
  | providerError (provider method message : String)
deriving DecidableEq

/-- Whether an error is the repository's `ProviderError`. -/
def PyErr.isProviderError : PyErr → Bool
  | .providerError .. => true
  | _ => false

/-- The message text with which `_handle_provider_error` re-wraps an
exception (`str(exception)` of the original cause). -/
def PyErr.wrappedMessage : PyErr → String
  | .valueError msg => msg
  | .providerError p m msg => p ++ "." ++ m ++ ": " ++ msg

deriving instance DecidableEq for Except

/-- Value of a digit character. -/
def digitVal (c : Char) : Nat := c.toNat - 48

/-- Python `int(s)` restricted to the unsigned decimal strings produced by
the providers; anything else raises `ValueError`. -/
def pyIntNat (s : String) : Except PyErr Nat :=
  if s.data.isEmpty || !(s.data.all Char.isDigit) then
    .error (.valueError s)
  else
    .ok (s.data.foldl (fun acc c => 10 * acc + digitVal c) 0)

/-- Source `BaseProvider.execute_safely` / `_handle_provider_error`
(`base_provider.py` lines 32–86): run the wrapped method; any exception is
re-raised as a `ProviderError` carrying the provider and method names and
the original message. -/
def executeSafely (provider method : String) (r : Except PyErr α) : Except PyErr α :=
  match r with
  | .ok v => .ok v
  | .error (.valueError msg) => .error (.providerError provider method msg)
  | .error (.providerError p m msg) => .error (.providerError provider method (p ++ "." ++ m ++ ": " ++ msg))

/-! ### Safety classifier
(`mock_safety_provider.py`, `MockSafetyProvider.check_content_appropriateness`,
lines 56–120).  The three return dictionaries have three different shapes;
they are modelled as the three constructors of `SafetyResult`. -/

/-- High-concern lexicon (`inappropriate_words`, line 62). -/
def inappropriate_words : List String :=
  ["scary", "violent", "blood", "kill", "dead", "weapon", "gun", "knife", "die"]

/-- Mild-concern lexicon (`mild_concern_words`, line 63). -/
def mild_concern_words : List String :=
  ["fight", "dark", "afraid", "scream", "monster", "ghost"]

/-- The three response shapes of `check_content_appropriateness`.
The `appropriate` key of the Python dict is `false` in the first shape,
`child_age >= 9` in the second, `true` in the third. -/
inductive SafetyResult where
  | rejected (reason suggested_edit : String) (flagged_terms : List String)
      (age_rating confidence violence_level fear_level analysis : String)
  | flagged (appropriate : Bool) (reason suggested_edit : String)
      (flagged_terms : List String)
      (age_rating confidence violence_level fear_level analysis : String)
  | appropriate (age_rating content_type reading_level confidence
      violence_level fear_level educational_value engagement_potential : String)
deriving DecidableEq

/-- Which of the three shapes was returned (the spec's "verdict"). -/
def SafetyResult.verdict : SafetyResult → String
  | .rejected .. => "rejected"
  | .flagged .. => "flagged"
  | .appropriate .. => "appropriate"

/-- The `appropriate` key of the returned dict. -/
def SafetyResult.isAppropriate : SafetyResult → Bool
  | .rejected .. => false
  | .flagged b .. => b
  | .appropriate .. => true

/-- The `flagged_terms` key (absent — `[]` — in the appropriate shape). -/
def SafetyResult.flaggedTerms : SafetyResult → List String
  | .rejected _ _ ts .. => ts
  | .flagged _ _ _ ts .. => ts
  | .appropriate .. => []

/-- The `reading_level` key (present only in the appropriate shape). -/
def SafetyResult.readingLevel : SafetyResult → Option String
  | .appropriate _ _ v .. => some v
  | _ => none

/-- Source `contains_inappropriate` (line 65): some high-concern term occurs in
the lower-cased text. -/
def contains_inappropriate (content : String) : Bool :=
  inappropriate_words.any (fun word => pyInLower word content)

/-- Source `contains_mild_concern` (line 66): some mild-concern term occurs in
the lower-cased text. -/
def contains_mild_concern (content : String) : Bool :=
  mild_concern_words.any (fun word => pyInLower word content)

/-- Source `MockSafetyProvider.check_content_appropriateness(content, child_age)`. -/
def check_content_appropriateness (content : String) (child_age : Nat) : SafetyResult :=
  if contains_inappropriate content then
    .rejected
      "Contains potentially scary or inappropriate content"
      "Consider using more child-friendly language"
      (inappropriate_words.filter (fun word => pyInLower word content))
      (s!"Not suitable for children under {max 13 (child_age + 2)}")
      "high"
      (if pyInLower "blood" content || pyInLower "kill" content then "moderate" else "low")
      (if pyInLower "scary" content then "high" else "moderate")
      "Content contains themes or language that may cause distress"
  else if contains_mild_concern content then
    .flagged (decide (9 ≤ child_age))
      "Contains some terms that may be concerning for very young children"
      "Consider gentler language for younger audiences"
      (mild_concern_words.filter (fun word => pyInLower word content))
      "Suitable for ages 9+" "medium" "minimal" "low to moderate"
      "Generally appropriate but includes mild elements that very young children might find unsettling"
  else
    let rating :=
      if child_age < 7 then "Suitable for ages 3-7"
      else if child_age < 12 then "Suitable for ages 7-12"
      else "Suitable for ages 12+"
    let vocabulary :=
      if child_age < 7 then "Simple vocabulary, appropriate for early readers"
      else if child_age < 12 then "Appropriate vocabulary for middle-grade readers"
      else "Vocabulary suitable for young teens"
    .appropriate rating
      (if pyInLower "learn" content || pyInLower "history" content then
        "informational and educational" else "entertainment")
      vocabulary "high" "none" "none"
      (if pyInLower "learn" content || pyInLower "history" content then "high" else "moderate")
      (if pyInLower "adventure" content || pyInLower "discover" content then "high" else "moderate")

/-- The spec's Age Band (`age_group`, `mock_narratives_provider.py` line 44):
younger (< 8), middle (8–11), older (12+). -/
def age_group (child_age : Nat) : String :=
  if child_age < 8 then "younger" else if child_age < 12 then "middle" else "older"

/-! ### AR encounters generator
(`mock_ar_encounters_provider.py`, `MockAREncountersProvider`). -/

/-- An encounter dict: bank entries carry no `id`/`difficulty`; generation
fills them in, and backfills `reward` when absent. -/
structure Encounter where
  type : String
  title : String
  description : String
  ar_model : String
  interaction_type : String
  reward : Option String
  id : Option String := none
  difficulty : Option String := none
deriving DecidableEq, Inhabited

/-- Source `_get_historical_encounters` (lines 207–274). -/
def historicalEncounters : List Encounter :=
  [ { type := "landmark", title := "Old Bridge",
      description := "This bridge has been standing for over 100 years! Look for the date carved in the stone.",
      ar_model := "models/old_bridge_overlay.glb", interaction_type := "find_and_learn",
      reward := some "History Badge: Bridge Builder" },
    { type := "character", title := "Pioneer Guide",
      description := "Meet Sarah, a pioneer who can tell you about life in the 1800s.",
      ar_model := "models/pioneer_woman.glb", interaction_type := "talk_and_learn",
      reward := some "History Fact: Pioneer Life" },
    { type := "puzzle", title := "Mining Tools",
      description := "Can you match these old mining tools to their names?",
      ar_model := "models/mining_tools.glb", interaction_type := "match_items",
      reward := some "History Badge: Mining Expert" },
    { type := "landmark", title := "Native American Cairn",
      description := "These stacked stones were used as trail markers by Native Americans.",
      ar_model := "models/stone_cairn.glb", interaction_type := "learn_and_build",
      reward := some "History Badge: Trail Marker" },
    { type := "puzzle", title := "Old Map Challenge",
      description := "Compare this old map from 1890 with today's landscape. Can you spot what has changed?",
      ar_model := "models/old_map_overlay.glb", interaction_type := "spot_differences",
      reward := some "History Badge: Cartographer" },
    { type := "character", title := "Forest Ranger Historian",
      description := "Ranger Bill knows all about the history of this forest. Ask him about the old logging camp!",
      ar_model := "models/ranger_character.glb", interaction_type := "interview",
      reward := some "History Badge: Forest Historian" },
    { type := "animal", title := "Historical Wildlife",
      description := "See what animals lived here 200 years ago, including some that are no longer found in this area.",
      ar_model := "models/historical_animals.glb", interaction_type := "observe_and_learn",
      reward := some "History Badge: Wildlife Historian" },
    { type := "landmark", title := "Old Mill Ruins",
      description := "Discover the remains of an old water mill that powered the early settlement.",
      ar_model := "models/mill_ruins.glb", interaction_type := "explore_ruins",
      reward := some "History Badge: Industrial Archaeologist" } ]

/-- Source `_get_fantasy_encounters` (lines 276–343). -/
def fantasyEncounters : List Encounter :=
  [ { type := "treasure", title := "Dragon's Treasure",
      description := "The dragon has hidden a treasure chest nearby! Can you find it?",
      ar_model := "models/treasure_chest.glb", interaction_type := "find_and_tap",
      reward := some "Fantasy Badge: Treasure Hunter" },
    { type := "character", title := "Forest Fairy",
      description := "A tiny forest fairy needs your help to find her lost wand!",
      ar_model := "models/forest_fairy.glb", interaction_type := "help_character",
      reward := some "Magic Dust (virtual item)" },
    { type := "puzzle", title := "Wizard's Riddle",
      description := "Solve the wizard's riddle to unlock a magical spell!",
      ar_model := "models/magic_book.glb", interaction_type := "solve_riddle",
      reward := some "Fantasy Badge: Apprentice Wizard" },
    { type := "animal", title := "Friendly Forest Dragon",
      description := "Meet Ember, the friendly dragon who protects the forest!",
      ar_model := "models/small_dragon.glb", interaction_type := "feed_and_pet",
      reward := some "Fantasy Badge: Dragon Friend" },
    { type := "landmark", title := "Magic Crystal Formation",
      description := "These crystals glow with magical energy. Place your hand near them to change their color!",
      ar_model := "models/glowing_crystals.glb", interaction_type := "touch_and_change",
      reward := some "Crystal Shard (virtual item)" },
    { type := "puzzle", title := "Enchanted Music Stones",
      description := "Tap these stones in the correct order to play a magical melody!",
      ar_model := "models/music_stones.glb", interaction_type := "sequence_puzzle",
      reward := some "Fantasy Badge: Music Mage" },
    { type := "character", title := "Talking Tree Guardian",
      description := "This ancient tree has awakened! It has stories to tell about the magical forest.",
      ar_model := "models/talking_tree.glb", interaction_type := "listen_and_respond",
      reward := some "Magical Seed (virtual item)" },
    { type := "treasure", title := "Fairy Ring",
      description := "Find the circle of mushrooms where fairies dance at night. There might be a gift waiting for you!",
      ar_model := "models/fairy_ring.glb", interaction_type := "discover_and_receive",
      reward := some "Fantasy Badge: Fairy Friend" } ]

/-- Bank selection (lines 31–34: history mode keys the historical bank,
anything else the fantasy bank). -/
def encounterBank (narrative_mode : String) : List Encounter :=
  if narrative_mode == "history" then historicalEncounters else fantasyEncounters

/-- Age-appropriate difficulty pools (lines 22–27). -/
def difficultyOptions (child_age : Nat) : List String :=
  if child_age < 8 then ["easy", "easy"]
  else if child_age < 12 then ["easy", "medium"]
  else ["easy", "medium", "hard"]

/-- Python `s.capitalize()`. -/
def pyCapitalize (s : String) : String :=
  match s.data with
  | [] => ""
  | c :: rest => String.mk (c.toUpper :: rest.map Char.toLower)

/-- The per-encounter body of the generation loop (lines 39–56): assign the
derived id, draw a difficulty, backfill the reward when absent.  The three
dict mutations of the loop body touch three distinct keys and are merged
into one record update; the only generator draw is the difficulty choice. -/
def arPostProcess (route_id narrative_mode : String) (opts : List String) :
    List Encounter → Nat → RNG → List Encounter × RNG
  | [], _, s => ([], s)
  | e :: rest, i, s =>
    let p := pyChoice opts s
    let e2 : Encounter :=
      { e with
        id := some s!"{e.type}_{strLastN 5 route_id}_{i + 1}",
        difficulty := some p.1,
        reward :=
          match e.reward with
          | some r => some r
          | none =>
            if e.type == "puzzle" then
              some s!"{pyCapitalize narrative_mode} Badge: {e.title} Solver"
            else
              some s!"{pyCapitalize narrative_mode} Badge: {e.title} Explorer" }
    let q := arPostProcess route_id narrative_mode opts rest (i + 1) p.2
    (e2 :: q.1, q.2)

/-- Source `MockAREncountersProvider.generate_ar_encounters` (lines 6–58).
The incoming global generator state is overwritten by
`random.seed(sum(ord(c) for c in route_id))` (lines 17–19). -/
def generate_ar_encounters (route_id narrative_mode : String)
    (child_age count : Nat) (_incoming : RNG) : List Encounter × RNG :=
  let seed := charSum route_id
  let s := rngSeed seed
  let difficulty_options := difficultyOptions child_age
  let possible_encounters := encounterBank narrative_mode
  let p := pySample possible_encounters (min count possible_encounters.length) s
  arPostProcess route_id narrative_mode difficulty_options p.1 0 p.2

/-! ### Family / progress generator
(`mock_users_provider.py`, `MockUsersProvider`). -/

/-- Seed derivation of the Family/Progress domain (lines 245 and 402):
`int(family_id.replace("family_", "0").replace("user_", "0"))`.
A non-numeric remainder raises `ValueError`. -/
def familySeed (family_id : String) : Except PyErr Nat :=
  pyIntNat (pyReplace (pyReplace family_id "family_" "0") "user_" "0")

/-- Source `trail_names` (lines 418–429). -/
def trail_names : List String :=
  ["Woodland Wonder Trail", "Mountain Explorer Path", "Riverside Stroll",
   "Eagle Summit Path", "Waterfall Explorer Trail", "Valley View Loop",
   "Historic Mining Trail", "Meadow Explorer Path", "Pine Ridge Loop",
   "Hidden Lake Circuit"]

/-- Source `nature_badges` (lines 432–435). -/
def nature_badges : List String :=
  ["Nature Explorer", "Trail Pioneer", "Wildlife Spotter", "Forest Friend",
   "Bird Watcher", "Plant Identifier", "Rock Collector", "Weather Watcher"]

/-- Source `history_badges` (lines 437–440). -/
def history_badges : List String :=
  ["History Buff", "Time Traveler", "Heritage Seeker", "Cultural Explorer",
   "Pioneer Spirit", "Artifact Finder", "Legend Hunter", "Monument Visitor"]

/-- Source `fantasy_badges` (lines 442–445). -/
def fantasy_badges : List String :=
  ["Treasure Hunter", "Dragon Friend", "Fairy Finder", "Wizard's Apprentice",
   "Monster Spotter", "Magic Collector", "Quest Completer", "Fantasy Hero"]

/-- Source `adventure_badges` (lines 447–450). -/
def adventure_badges : List String :=
  ["Summit Seeker", "Trail Master", "Distance Champion", "Early Bird Hiker",
   "All Weather Hiker", "Night Explorer", "Terrain Tackler", "Weekend Warrior"]

/-- Source `family_badges` (lines 452–455). -/
def family_badges : List String :=
  ["Family Explorer", "Team Adventure", "Memory Makers", "Photo Champions",
   "Journal Keepers", "Trail Family", "Outdoor Crew", "Nature Clan"]

/-- Source `badge_categories` as shuffled in the per-route badge draw (line 476). -/
def badge_categories : List (List String) :=
  [nature_badges, history_badges, fantasy_badges, adventure_badges]

/-- Weather options (line 510). -/
def weatherOptions : List String :=
  ["Sunny", "Partly Cloudy", "Overcast", "Light Rain", "Perfect"]

/-- Special-achievement pool (lines 491–499). -/
def specialAchievementOptions : List String :=
  ["Reached the summit", "Found a hidden waterfall", "Spotted rare wildlife",
   "Completed the entire trail in record time", "Discovered a scenic viewpoint",
   "Completed all AR encounters", "Solved all trail puzzles"]

/-- One synthesized completed route (lines 502–513).  `completion_date`
strings are `(2025-09-04 - days_ago)` ISO dates; the mapping `days_ago ↦
date string` is injective and order-reversing, so dates are represented by
`completionDaysAgo` and the descending string sort by an ascending sort on
days ago.  `distance = round(uniform(1.5, 8.5), 1)` is represented exactly
in integer tenths. -/
structure CompletedRoute where
  route_id : String
  route_name : String
  completionDaysAgo : Nat
  duration : Nat
  distanceTenths : Nat
  badges_earned : List String
  photos : List String
  weather : String
  rating : Nat
  special_achievements : List String
deriving DecidableEq, Inhabited

/-- Python `random.randint(0, 120)` drawn once per route for the completion dates
(lines 409–412). -/
def genDates : Nat → RNG → List Nat × RNG
  | 0, s => ([], s)
  | k + 1, s =>
    let p := randint 0 120 s
    let q := genDates k p.2
    (p.1 :: q.1, q.2)

/-- Source `for j in range(min(num_badges, len(badge_categories))): badge =
random.choice(badge_categories[j])` (lines 478–480). -/
def chooseFromCats : List (List String) → Nat → RNG → List String × RNG
  | _, 0, s => ([], s)
  | [], _ + 1, s => ([], s)
  | cat :: rest, k + 1, s =>
    let p := pyChoice cat s
    let q := chooseFromCats rest k p.2
    (p.1 :: q.1, q.2)

/-- Source `if badge not in all_badges_earned: all_badges_earned.append(badge)`
(lines 481–482, 519–521). -/
def addNewBadges (acc new : List String) : List String :=
  new.foldl (fun a b => if a.contains b then a else a ++ [b]) acc

/-- One iteration of the route-generation loop of `get_family_progress`
(lines 464–515): all draws in source order, producing the completed-route
record, the updated `all_badges_earned`, and the advanced generator
state. -/
def genOneRoute (dates : List Nat) (i : Nat) (allB : List String) (s : RNG) :
    CompletedRoute × List String × RNG :=
  let p1 := randint 10000 99999 s
  let route_id := s!"route_{p1.1}"
  let p2 := pyChoice trail_names p1.2
  let pd := randBelow 71 p2.2
  let distanceTenths := 15 + pd.1
  let pnb := randint 0 3 pd.2
  let pb :=
    if pnb.1 > 0 then
      let psh := pyShuffle badge_categories pnb.2
      chooseFromCats psh.1 (min pnb.1 badge_categories.length) psh.2
    else ([], pnb.2)
  let allB2 := addNewBadges allB pb.1
  let pnp := randint 0 4 pb.2
  let photos := (List.range pnp.1).map (fun j => s!"trip{i + 1}_photo{j + 1}.jpg")
  let pr := randBelow 10 pnp.2
  let psp :=
    if pr.1 < 3 then
      let pc := pyChoice specialAchievementOptions pr.2
      ([pc.1], pc.2)
    else ([], pr.2)
  let pdur := randint 45 180 psp.2
  let pw := pyChoice weatherOptions pdur.2
  let prt := randint 3 5 pw.2
  ({ route_id, route_name := p2.1, completionDaysAgo := dates.getD i 0,
     duration := pdur.1, distanceTenths, badges_earned := pb.1,
     photos, weather := pw.1, rating := prt.1,
     special_achievements := psp.1 }, allB2, prt.2)

/-- The route-generation loop of `get_family_progress` (lines 464–515),
threading the running totals (`completed_routes`, `total_distance`,
`all_badges_earned`) exactly as the source does. -/
def genCompletedRoutes (dates : List Nat) :
    Nat → Nat → Nat → List CompletedRoute → List String → RNG →
    List CompletedRoute × Nat × List String × RNG
  | 0, _, tot, acc, allB, s => (acc, tot, allB, s)
  | rem + 1, i, tot, acc, allB, s =>
    let g := genOneRoute dates i allB s
    genCompletedRoutes dates rem (i + 1) (tot + g.1.distanceTenths)
      (acc ++ [g.1]) g.2.1 g.2.2

/-- The fields of the `get_family_progress` payload that the claims are
about (lines 655–682).  The later payload fields (journal entries,
adventure stats, learning progress, …) are synthesized after these values
are fixed and never feed back into them; they are not modelled
(`adventure_stats.favorite_trail` additionally iterates a Python `set`,
whose order is hash-randomized). -/
structure FamilyProgress where
  completed_routes : List CompletedRoute
  badges : List String
  total_distanceTenths : Nat
  total_routes : Nat
  total_elevation_gain : Nat
  milestone_achievements : List String
deriving DecidableEq, Inhabited

/-- Source `num_completed_routes = random.randint(3, 10)` from the freshly
reseeded generator (lines 402–406). -/
def fp_num_completed_routes (seedN : Nat) : Nat × RNG :=
  randint 3 10 (rngSeed seedN)

/-- The sorted completion dates (lines 409–415; days-ago representation,
ascending order ↔ the source's descending date-string sort). -/
def fp_completed_dates (seedN : Nat) : List Nat × RNG :=
  let p := genDates (fp_num_completed_routes seedN).1 (fp_num_completed_routes seedN).2
  (p.1.insertionSort (· ≤ ·), p.2)

/-- The route loop of `get_family_progress`, started on empty accumulators
(lines 460–515). -/
def fp_routes (seedN : Nat) :
    List CompletedRoute × Nat × List String × RNG :=
  genCompletedRoutes (fp_completed_dates seedN).1 (fp_num_completed_routes seedN).1
    0 0 [] [] (fp_completed_dates seedN).2

/-- Body of `MockUsersProvider.get_family_progress` after the seed parse
(lines 402–682): reseed the global generator, draw `3–10` completed
routes, accumulate total distance, add family-specific badges, and emit
the aggregate payload.  `total_elevation_gain =
int(total_distance * uniform(20, 40))` is modelled with an integer factor
draw; the skipped journal-entry draws sit between the modelled fields and
do not affect them. -/
def get_family_progress_core (seedN : Nat) : FamilyProgress :=
  let num_completed_routes := (fp_num_completed_routes seedN).1
  let pr := fp_routes seedN
  let completed_routes := pr.1
  let totalTenths := pr.2.1
  let pk := randint 1 3 pr.2.2.2
  let pfb := pySample family_badges pk.1 pk.2
  let all_badges_earned := addNewBadges pr.2.2.1 pfb.1
  let pe := randint 20 40 pfb.2
  let total_elevation_gain := totalTenths * pe.1 / 10
  let milestones :=
    (if 100 ≤ totalTenths then [s!"Hiked {totalTenths / 10} kilometers total"] else []) ++
    (if 500 ≤ total_elevation_gain then [s!"Climbed {total_elevation_gain} meters of elevation"] else []) ++
    (if 5 ≤ num_completed_routes then [s!"Completed {num_completed_routes} different trails"] else []) ++
    (if 5 ≤ all_badges_earned.length then [s!"Earned {all_badges_earned.length} badges"] else [])
  { completed_routes, badges := all_badges_earned,
    total_distanceTenths := totalTenths,
    total_routes := num_completed_routes,
    total_elevation_gain, milestone_achievements := milestones }

/-- Source `MockUsersProvider.get_family_progress(family_id)` (lines 400–682).
The seed parse on line 402 runs first and propagates `ValueError` for a
non-numeric identifier; no wrapper catches it (the users provider never
routes through `execute_safely`). -/
def get_family_progress (family_id : String) (_incoming : RNG) :
    Except PyErr FamilyProgress :=
  match familySeed family_id with
  | .error e => .error e
  | .ok n => .ok (get_family_progress_core n)

/-- The `activity` argument of `complete_route` as used by the code:
only `activity.get("badges_earned", [])` is read. -/
structure Activity where
  badges_earned : List String
deriving DecidableEq, Inhabited

/-- A recommended trail in the `complete_route` payload (lines 714–726). -/
structure RecommendedTrail where
  id : String
  name : String
  difficulty : String
  distanceTenths : Nat
deriving DecidableEq, Inhabited

/-- The `complete_route` payload (lines 697–729); `family_progress` is the
nested dict of lines 709–713. -/
structure CompleteRouteResult where
  message : String
  completion_id : String
  timestamp : String
  badges_earned : List String
  experience_points : Nat
  achievements_unlocked : List String
  fp_total_routes : Nat
  fp_total_distanceTenths : Nat
  fp_badges_count : Nat
  next_recommended_trails : List RecommendedTrail
  challenge_progress_updated : Bool
  streak_maintained : Bool
deriving DecidableEq, Inhabited

/-- Achievement pool of `complete_route` (lines 703–708). -/
def completionAchievementPool : List String :=
  ["First September Hike", "Trail Expert Level 2", "Wildlife Observer",
   "3-Trail Weekend"]

/-- Recommended-trail name pool of `complete_route` (lines 717–722). -/
def recommendedTrailNames : List String :=
  ["Sunset Ridge Trail", "Crystal Lake Loop", "Ancient Forest Path",
   "River Rapids Trail"]

/-- Source `MockUsersProvider.complete_route(family_id, route_id, activity)`
(lines 695–729).  Every draw comes from the incoming global generator
state — the method never calls `random.seed`. -/
def complete_route (family_id route_id : String) (activity : Activity)
    (s : RNG) : CompleteRouteResult × RNG :=
  let p1 := randint 1000 9999 s
  let completion_id := s!"completion_{strLastN 4 family_id}_{strLastN 4 route_id}_{p1.1}"
  let pxp := randint 50 200 p1.2
  let pk := randint 0 2 pxp.2
  let pach := pySample completionAchievementPool pk.1 pk.2
  let ptr := randint 2 15 pach.2
  let ptd := randBelow 416 ptr.2
  let fp_total_distanceTenths := 85 + ptd.1
  let pbc := randint 5 20 ptd.2
  let prid := randint 10000 99999 pbc.2
  let pname := pyChoice recommendedTrailNames prid.2
  let pdiff := pyChoice ["easy", "moderate", "hard"] pname.2
  let pdist := randBelow 81 pdiff.2
  let pch := pyChoice [true, false] pdist.2
  ({ message := "Route completion recorded",
     completion_id,
     timestamp := "2025-09-04T16:30:45Z",
     badges_earned := activity.badges_earned,
     experience_points := pxp.1,
     achievements_unlocked := pach.1,
     fp_total_routes := ptr.1,
     fp_total_distanceTenths,
     fp_badges_count := pbc.1,
     next_recommended_trails :=
       [{ id := s!"route_{prid.1}", name := pname.1, difficulty := pdiff.1,
          distanceTenths := 20 + pdist.1 }],
     challenge_progress_updated := pch.1,
     streak_maintained := true }, pch.2)

/-- The `register_family` payload (lines 9–34); the static `next_steps`
and `recommended_trails` lists are constants of the source and elided. -/
structure RegisterFamilyResult where
  message : String
  family_id : String
  created_at : String
  account_status : String
  welcome_badge : String
  onboarding_complete : Bool
deriving DecidableEq, Inhabited

/-- Source `MockUsersProvider.register_family(family)` (lines 7–34).  Python
evaluates `family.get("id", f"family_{random.randint(1000, 9999)}")`'s
default eagerly, so the draw from the unseeded global generator happens on
every call. -/
def register_family (familyIdField : Option String) (s : RNG) :
    RegisterFamilyResult × RNG :=
  let p := randint 1000 9999 s
  let fid :=
    match familyIdField with
    | some i => i
    | none => s!"family_{p.1}"
  ({ message := "Family registered successfully",
     family_id := fid,
     created_at := "2025-09-04T13:25:10Z",
     account_status := "active",
     welcome_badge := "Trail Pioneer",
     onboarding_complete := false }, p.2)

/-! ### Narrative history
(`mock_narratives_provider.py`, `MockNarrativesProvider._get_narrative_history_impl`,
lines 121–213).  The method body is modelled as a sequence of statements
with early-return semantics, so that the block sitting after the
unconditional `return` on line 132 can be shown not to influence the
result. -/

/-- A recorded narrative-history entry (the metadata appended by
`_generate_narrative_impl`, lines 57–62). -/
structure HistEntry where
  route_id : String
  mode : String
  timestamp : String
  preview : String
deriving DecidableEq, Inhabited

/-- The data a run of `_get_narrative_history_impl` reads: the
`self._narrative_history` mapping, the `user_id`, and the `limit`
(a Python `int`). -/
abbrev HistState := List (String × List HistEntry) × String × Int

/-- Possible returned values: the history list of the reachable branches,
or one of the narrative dictionaries built by the unreachable block. -/
inductive HistResult where
  | entries (l : List HistEntry)
  | deadDict (tag : String)
deriving DecidableEq

/-- Run a statement list with early-return semantics: the first statement
that produces a value ends the method. -/
def runBody {σ ρ : Type} (stmts : List (σ → Option ρ)) (st : σ) : Option ρ :=
  match stmts with
  | [] => none
  | f :: rest =>
    match f st with
    | some r => some r
    | none => runBody rest st

/-- Python `l[i:]` for an `int` index `i` (negative indices count from the
end, clamped to the list). -/
def pySliceFrom (i : Int) (l : List α) : List α :=
  if i < 0 then l.drop (max 0 ((l.length : Int) + i)).toNat
  else l.drop ((min (l.length : Int) i).toNat)

/-- Lines 127–128: `if user_id not in self._narrative_history: return []`. -/
def histStmt1 : HistState → Option HistResult
  | (hist, user, _) =>
    if (hist.lookup user).isNone then some (.entries []) else none

/-- Lines 131–132: `history = self._narrative_history[user_id];
return history[-limit:] if len(history) > limit else history`. -/
def histStmt2 : HistState → Option HistResult
  | (hist, user, limit) =>
    let history := (hist.lookup user).getD []
    some (.entries
      (if limit < (history.length : Int) then pySliceFrom (-limit) history
       else history))

/-- The statements up to and including the unconditional `return`. -/
def histBody : List (HistState → Option HistResult) := [histStmt1, histStmt2]

/-- Source `_get_narrative_history_impl`, restricted to its reachable statements. -/
def get_narrative_history_impl (st : HistState) : Option HistResult :=
  runBody histBody st

/-! ### Supporting lemmas -/

theorem randint_bounds {a b : Nat} (h : a ≤ b) (s : RNG) :
    a ≤ (randint a b s).1 ∧ (randint a b s).1 ≤ b := by
  have key : ∀ y : Nat, a ≤ a + y % (b - a + 1) ∧ a + y % (b - a + 1) ≤ b := by
    intro y
    have hm : y % (b - a + 1) < b - a + 1 := Nat.mod_lt _ (by omega)
    omega
  exact key (rngNext s)

theorem pyChoice_fst_mem [Inhabited α] {l : List α} (h : l ≠ []) (s : RNG) :
    (pyChoice l s).1 ∈ l := by
  have hl : 0 < l.length := List.length_pos.mpr h
  have hlt : rngNext s % l.length < l.length := Nat.mod_lt _ hl
  show l.getD (rngNext s % l.length) default ∈ l
  rw [List.getD_eq_getElem?_getD, List.getElem?_eq_getElem hlt]
  exact List.getElem_mem hlt

/-- Moving the last element to the front of `dropLast` is a permutation of
the list (multiset identity behind the pool-sampling step). -/
theorem lastD_cons_dropLast [Inhabited α] :
    ∀ (l : List α), l ≠ [] →
      ((l.getD (l.length - 1) default) ::ₘ (l.dropLast : Multiset α)) = (l : Multiset α)
  | [], h => absurd rfl h
  | [_], _ => by simp
  | x :: y :: rest, _ => by
    have ih := lastD_cons_dropLast (y :: rest) (by simp)
    have hidx : (x :: y :: rest).getD ((x :: y :: rest).length - 1) default
        = (y :: rest).getD ((y :: rest).length - 1) default := by
      simp only [List.length_cons, Nat.add_sub_cancel, List.getD_cons_succ]
    rw [hidx, List.dropLast_cons₂, ← Multiset.cons_coe, Multiset.cons_swap, ih,
      Multiset.cons_coe]

/-- The pool-shrinking step of `random.sample`: the chosen element together
with the shrunken pool is the original pool, as a multiset. -/
theorem removeSwap_multiset [Inhabited α] :
    ∀ (l : List α) (j : Nat), j < l.length →
      ((l.getD j default) ::ₘ
        (((l.set j (l.getD (l.length - 1) default)).dropLast : List α) : Multiset α))
        = (l : Multiset α)
  | [], j, h => by simp at h
  | x :: rest, 0, _ => by
    match rest with
    | [] => simp
    | y :: rest' =>
      have hlast : (x :: y :: rest').getD ((x :: y :: rest').length - 1) default
          = (y :: rest').getD ((y :: rest').length - 1) default := by
        simp only [List.length_cons, Nat.add_sub_cancel, List.getD_cons_succ]
      rw [hlast]
      have h0 : ((x :: y :: rest').set 0
          ((y :: rest').getD ((y :: rest').length - 1) default))
          = ((y :: rest').getD ((y :: rest').length - 1) default) :: y :: rest' := rfl
      rw [h0, List.dropLast_cons₂, List.getD_cons_zero,
        ← Multiset.cons_coe x (y :: rest'),
        ← lastD_cons_dropLast (y :: rest') (by simp),
        ← Multiset.cons_coe ((y :: rest').getD ((y :: rest').length - 1) default)
          (y :: rest').dropLast]
  | x :: rest, j + 1, h => by
    have hj : j < rest.length := by
      simpa using Nat.lt_of_succ_lt_succ h
    have hrest : rest ≠ [] := by
      intro hz
      rw [hz] at hj
      simp at hj
    have hlast : (x :: rest).getD ((x :: rest).length - 1) default
        = rest.getD (rest.length - 1) default := by
      match rest, hrest with
      | y :: rest', _ =>
        simp only [List.length_cons, Nat.add_sub_cancel, List.getD_cons_succ]
    have hset : (x :: rest).set (j + 1) (rest.getD (rest.length - 1) default)
        = x :: rest.set j (rest.getD (rest.length - 1) default) := rfl
    have hsetne : rest.set j (rest.getD (rest.length - 1) default) ≠ [] := by
      intro hz
      have hlen : (rest.set j (rest.getD (rest.length - 1) default)).length = 0 := by
        rw [hz]
        rfl
      rw [List.length_set] at hlen
      omega
    rw [hlast, hset, List.getD_cons_succ,
      List.dropLast_cons_of_ne_nil hsetne,
      ← Multiset.cons_coe x ((rest.set j (rest.getD (rest.length - 1) default)).dropLast),
      Multiset.cons_swap, ← Multiset.cons_coe x rest,
      removeSwap_multiset rest j hj]

theorem pySampleAux_zero [Inhabited α] (pool acc : List α) (s : RNG) :
    pySampleAux 0 pool acc s = (acc.reverse, s) := rfl

theorem pySampleAux_nil [Inhabited α] (acc : List α) (k : Nat) (s : RNG) :
    pySampleAux (k + 1) ([] : List α) acc s = (acc.reverse, s) := rfl

theorem pySampleAux_cons [Inhabited α] (x : α) (rest acc : List α) (k : Nat) (s : RNG) :
    pySampleAux (k + 1) (x :: rest) acc s =
      pySampleAux k (((x :: rest).set (rngNext s % (x :: rest).length)
          ((x :: rest).getD ((x :: rest).length - 1) default)).dropLast)
        (((x :: rest).getD (rngNext s % (x :: rest).length) default) :: acc)
        (rngNext s) := rfl

theorem pySampleAux_length [Inhabited α] :
    ∀ (k : Nat) (pool acc : List α) (s : RNG),
      (pySampleAux k pool acc s).1.length = min k pool.length + acc.length
  | 0, pool, acc, s => by simp [pySampleAux_zero]
  | k + 1, [], acc, s => by simp [pySampleAux_nil]
  | k + 1, x :: rest, acc, s => by
    rw [pySampleAux_cons, pySampleAux_length k]
    simp only [List.length_dropLast, List.length_set, List.length_cons]
    omega

theorem pySampleAux_multiset_le [Inhabited α] :
    ∀ (k : Nat) (pool acc : List α) (s : RNG),
      (((pySampleAux k pool acc s).1 : List α) : Multiset α)
        ≤ (pool : Multiset α) + (acc : Multiset α)
  | 0, pool, acc, s => by
    rw [pySampleAux_zero]
    rw [show (((acc.reverse, s) : List α × RNG).1 : Multiset α) = (acc.reverse : Multiset α) from rfl]
    rw [Multiset.coe_eq_coe.mpr (List.reverse_perm acc)]
    exact Multiset.le_add_left _ _
  | k + 1, [], acc, s => by
    rw [pySampleAux_nil]
    rw [show (((acc.reverse, s) : List α × RNG).1 : Multiset α) = (acc.reverse : Multiset α) from rfl]
    rw [Multiset.coe_eq_coe.mpr (List.reverse_perm acc)]
    exact Multiset.le_add_left _ _
  | k + 1, x :: rest, acc, s => by
    have hlt : rngNext s % (x :: rest).length < (x :: rest).length :=
      Nat.mod_lt _ (by simp)
    rw [pySampleAux_cons]
    refine le_trans (pySampleAux_multiset_le k _ _ _) ?_
    rw [← Multiset.cons_coe ((x :: rest).getD (rngNext s % (x :: rest).length) default) acc,
      Multiset.add_cons,
      ← removeSwap_multiset (x :: rest) (rngNext s % (x :: rest).length) hlt,
      Multiset.cons_add]

theorem pySample_length [Inhabited α] (pool : List α) (k : Nat) (s : RNG) :
    (pySample pool k s).1.length = min k pool.length := by
  have h := pySampleAux_length k pool ([] : List α) s
  simpa [pySample] using h

theorem pySample_multiset_le [Inhabited α] (pool : List α) (k : Nat) (s : RNG) :
    (((pySample pool k s).1 : List α) : Multiset α) ≤ (pool : Multiset α) := by
  have h := pySampleAux_multiset_le k pool ([] : List α) s
  simpa [pySample] using h

theorem arPostProcess_map_title (rid m : String) (opts : List String) :
    ∀ (l : List Encounter) (i : Nat) (s : RNG),
      (arPostProcess rid m opts l i s).1.map (fun e => e.title)
        = l.map (fun e => e.title)
  | [], _, _ => rfl
  | e :: rest, i, s => by
    simp only [arPostProcess, List.map_cons]
    rw [arPostProcess_map_title rid m opts rest (i + 1)]

theorem arPostProcess_length (rid m : String) (opts : List String)
    (l : List Encounter) (i : Nat) (s : RNG) :
    (arPostProcess rid m opts l i s).1.length = l.length := by
  have h := congrArg List.length (arPostProcess_map_title rid m opts l i s)
  simpa using h

theorem arPostProcess_difficulty (rid m : String) {opts : List String} (h : opts ≠ []) :
    ∀ (l : List Encounter) (i : Nat) (s : RNG) (e : Encounter),
      e ∈ (arPostProcess rid m opts l i s).1 → ∃ d ∈ opts, e.difficulty = some d
  | [], _, _, e, he => by simp [arPostProcess] at he
  | e0 :: rest, i, s, e, he => by
    simp only [arPostProcess, List.mem_cons] at he
    rcases he with he | he
    · subst he
      exact ⟨(pyChoice opts s).1, pyChoice_fst_mem h s, rfl⟩
    · exact arPostProcess_difficulty rid m h rest (i + 1) (pyChoice opts s).2 e he

theorem encounterBank_length (m : String) : (encounterBank m).length = 8 := by
  unfold encounterBank
  split <;> rfl

theorem encounterBank_titles_nodup (m : String) :
    ((encounterBank m).map (fun e => e.title)).Nodup := by
  unfold encounterBank
  split <;> decide

theorem generate_ar_encounters_length (rid m : String) (age count : Nat) (s : RNG) :
    (generate_ar_encounters rid m age count s).1.length
      = min count (encounterBank m).length := by
  simp only [generate_ar_encounters]
  rw [arPostProcess_length, pySample_length]
  omega

theorem generate_ar_encounters_titles_nodup (rid m : String) (age count : Nat) (s : RNG) :
    ((generate_ar_encounters rid m age count s).1.map (fun e => e.title)).Nodup := by
  simp only [generate_ar_encounters]
  rw [arPostProcess_map_title]
  have hle := pySample_multiset_le (encounterBank m)
    (min count (encounterBank m).length) (rngSeed (charSum rid))
  have hmap : (((pySample (encounterBank m) (min count (encounterBank m).length)
        (rngSeed (charSum rid))).1.map (fun e => e.title) : List String) : Multiset String)
      ≤ (((encounterBank m).map (fun e => e.title) : List String) : Multiset String) := by
    have h2 := Multiset.map_le_map (f := fun e : Encounter => e.title) hle
    rwa [Multiset.map_coe, Multiset.map_coe] at h2
  have hnd := Multiset.nodup_of_le hmap
    (Multiset.coe_nodup.mpr (encounterBank_titles_nodup m))
  exact Multiset.coe_nodup.mp hnd

theorem generate_ar_encounters_difficulty (rid m : String) (age count : Nat) (s : RNG)
    (e : Encounter) (he : e ∈ (generate_ar_encounters rid m age count s).1) :
    ∃ d ∈ difficultyOptions age, e.difficulty = some d := by
  have hne : difficultyOptions age ≠ [] := by
    unfold difficultyOptions
    split
    · simp
    · split <;> simp
  simp only [generate_ar_encounters] at he
  exact arPostProcess_difficulty rid m hne _ _ _ e he

/-- The generator-state evolution of `random.sample` depends only on the
length of the pool, not its contents. -/
theorem pySampleAux_snd_congr [Inhabited α] [Inhabited β] :
    ∀ (k : Nat) (pool1 : List α) (pool2 : List β) (acc1 : List α) (acc2 : List β)
      (s : RNG), pool1.length = pool2.length →
      (pySampleAux k pool1 acc1 s).2 = (pySampleAux k pool2 acc2 s).2
  | 0, _, _, _, _, _, _ => rfl
  | _ + 1, [], [], _, _, _, _ => rfl
  | _ + 1, [], _ :: _, _, _, _, h => by simp at h
  | _ + 1, _ :: _, [], _, _, _, h => by simp at h
  | k + 1, x :: r1, y :: r2, acc1, acc2, s, h => by
    rw [pySampleAux_cons, pySampleAux_cons]
    apply pySampleAux_snd_congr
    simp only [List.length_dropLast, List.length_set, List.length_cons] at h ⊢
    omega

theorem pySample_snd_congr [Inhabited α] [Inhabited β] {pool1 : List α}
    {pool2 : List β} (k : Nat) (s : RNG) (h : pool1.length = pool2.length) :
    (pySample pool1 k s).2 = (pySample pool2 k s).2 :=
  pySampleAux_snd_congr k pool1 pool2 [] [] s h

/-- The difficulty draws and the state evolution of the post-processing
loop depend only on the difficulty pool, the number of encounters and the
incoming state — not on the route, mode, or encounter contents. -/
theorem arPostProcess_congr (r1 m1 r2 m2 : String) (opts : List String) :
    ∀ (l1 l2 : List Encounter) (i1 i2 : Nat) (s : RNG),
      l1.length = l2.length →
      (arPostProcess r1 m1 opts l1 i1 s).1.map (fun e => e.difficulty)
          = (arPostProcess r2 m2 opts l2 i2 s).1.map (fun e => e.difficulty)
        ∧ (arPostProcess r1 m1 opts l1 i1 s).2 = (arPostProcess r2 m2 opts l2 i2 s).2
  | [], [], _, _, _, _ => ⟨rfl, rfl⟩
  | [], _ :: _, _, _, _, h => by simp at h
  | _ :: _, [], _, _, _, h => by simp at h
  | e1 :: t1, e2 :: t2, i1, i2, s, h => by
    have ih := arPostProcess_congr r1 m1 r2 m2 opts t1 t2 (i1 + 1) (i2 + 1)
      (pyChoice opts s).2 (by simpa using h)
    constructor
    · simp only [arPostProcess, List.map_cons]
      rw [ih.1]
    · simpa only [arPostProcess] using ih.2

/-- Unfolding equation of the route loop. -/
theorem genCompletedRoutes_succ (dates : List Nat) (rem i tot : Nat)
    (acc : List CompletedRoute) (allB : List String) (s : RNG) :
    genCompletedRoutes dates (rem + 1) i tot acc allB s
      = genCompletedRoutes dates rem (i + 1)
          (tot + (genOneRoute dates i allB s).1.distanceTenths)
          (acc ++ [(genOneRoute dates i allB s).1])
          (genOneRoute dates i allB s).2.1 (genOneRoute dates i allB s).2.2 := rfl

/-- Loop invariant of the route loop: it appends exactly `rem` routes and
adds exactly their distances to the running total. -/
theorem genCompletedRoutes_spec (dates : List Nat) :
    ∀ (rem i tot : Nat) (acc : List CompletedRoute) (allB : List String) (s : RNG),
      ∃ extra : List CompletedRoute,
        (genCompletedRoutes dates rem i tot acc allB s).1 = acc ++ extra ∧
        extra.length = rem ∧
        (genCompletedRoutes dates rem i tot acc allB s).2.1
          = tot + (extra.map (fun r => r.distanceTenths)).sum
  | 0, _, tot, acc, _, _ => ⟨[], by simp [genCompletedRoutes]⟩
  | rem + 1, i, tot, acc, allB, s => by
    obtain ⟨extra, h1, h2, h3⟩ := genCompletedRoutes_spec dates rem (i + 1)
      (tot + (genOneRoute dates i allB s).1.distanceTenths)
      (acc ++ [(genOneRoute dates i allB s).1])
      (genOneRoute dates i allB s).2.1 (genOneRoute dates i allB s).2.2
    refine ⟨(genOneRoute dates i allB s).1 :: extra, ?_, ?_, ?_⟩
    · rw [genCompletedRoutes_succ, h1]
      simp [List.append_assoc]
    · simp [h2]
    · rw [genCompletedRoutes_succ, h3]
      simp only [List.map_cons, List.sum_cons]
      omega

theorem get_family_progress_core_spec (n : Nat) :
    (get_family_progress_core n).total_distanceTenths
        = ((get_family_progress_core n).completed_routes.map
            (fun r => r.distanceTenths)).sum ∧
    (get_family_progress_core n).total_routes
        = (get_family_progress_core n).completed_routes.length ∧
    3 ≤ (get_family_progress_core n).total_routes ∧
    (get_family_progress_core n).total_routes ≤ 10 := by
  have hc : (get_family_progress_core n).completed_routes = (fp_routes n).1 := by
    simp only [get_family_progress_core]
  have ht : (get_family_progress_core n).total_distanceTenths = (fp_routes n).2.1 := by
    simp only [get_family_progress_core]
  have hr : (get_family_progress_core n).total_routes = (fp_num_completed_routes n).1 := by
    simp only [get_family_progress_core]
  obtain ⟨extra, h1, h2, h3⟩ := genCompletedRoutes_spec (fp_completed_dates n).1
    (fp_num_completed_routes n).1 0 0 [] [] (fp_completed_dates n).2
  have hfr1 : (fp_routes n).1 = extra := by
    unfold fp_routes
    rw [h1]
    simp
  have hfr2 : (fp_routes n).2.1 = (extra.map (fun r => r.distanceTenths)).sum := by
    unfold fp_routes
    rw [h3]
    simp
  have hb := randint_bounds (show (3 : Nat) ≤ 10 by omega) (rngSeed n)
  refine ⟨?_, ?_, ?_, ?_⟩
  · rw [ht, hc, hfr1, hfr2]
  · rw [hr, hc, hfr1, ← h2]
  · rw [hr]
    exact hb.1
  · rw [hr]
    exact hb.2

theorem runBody_histBody_append (dead : List (HistState → Option HistResult))
    (st : HistState) : runBody (histBody ++ dead) st = runBody histBody st := by
  obtain ⟨hist, user, limit⟩ := st
  by_cases h : (hist.lookup user).isNone
  · simp [histBody, runBody, histStmt1, h]
  · simp [histBody, runBody, histStmt1, histStmt2, h]

/-! ### Claims -/

/-- C1 (amended): determinism holds for the seeded generator operations —
`generate_ar_encounters` and `get_family_progress` overwrite the global
generator state with an identifier-derived seed, so their results do not
depend on the incoming state; the unseeded Family/Progress operations
(`complete_route`, `register_family`) do depend on it. -/
theorem C1_seeded_operations_deterministic (route_id narrative_mode : String)
    (child_age count : Nat) (family_id : String) (s1 s2 : RNG) :
    generate_ar_encounters route_id narrative_mode child_age count s1
        = generate_ar_encounters route_id narrative_mode child_age count s2 ∧
    get_family_progress family_id s1 = get_family_progress family_id s2 :=
  ⟨rfl, rfl⟩

/-- C1 counterexample: `complete_route` draws from the unseeded global
generator, so calling it twice in a row with identical parameters yields
different payloads (here the `completion_id` differs). -/
theorem C1_counterexample_complete_route_not_deterministic :
    (complete_route "family_1234" "route_5678" ⟨[]⟩ (rngSeed 42)).1
      ≠ (complete_route "family_1234" "route_5678" ⟨[]⟩
          (complete_route "family_1234" "route_5678" ⟨[]⟩ (rngSeed 42)).2).1 := by
  decide

/-- C2 (amended): high-concern terms force the rejected verdict with
`appropriate = false` regardless of mild matches; mild-only texts are
flagged with `appropriate = true` iff `age ≥ 9`; term-free texts are
appropriate with a reading-level label chosen by the thresholds
`age < 7` / `7 ≤ age < 12` / `age ≥ 12` (not by the `<8 / 8–11 / 12+`
Age Band). -/
theorem C2_check_content_classification (content : String) (age : Nat) :
    (contains_inappropriate content = true →
      (check_content_appropriateness content age).verdict = "rejected" ∧
      (check_content_appropriateness content age).isAppropriate = false) ∧
    (contains_inappropriate content = false → contains_mild_concern content = true →
      (check_content_appropriateness content age).verdict = "flagged" ∧
      ((check_content_appropriateness content age).isAppropriate = true ↔ 9 ≤ age)) ∧
    (contains_inappropriate content = false → contains_mild_concern content = false →
      (check_content_appropriateness content age).verdict = "appropriate" ∧
      (check_content_appropriateness content age).isAppropriate = true ∧
      (check_content_appropriateness content age).readingLevel
        = some (if age < 7 then "Simple vocabulary, appropriate for early readers"
            else if age < 12 then "Appropriate vocabulary for middle-grade readers"
            else "Vocabulary suitable for young teens")) := by
  refine ⟨fun h => ?_, fun h1 h2 => ?_, fun h1 h2 => ?_⟩
  · simp [check_content_appropriateness, h, SafetyResult.verdict,
      SafetyResult.isAppropriate]
  · simp [check_content_appropriateness, h1, h2, SafetyResult.verdict,
      SafetyResult.isAppropriate]
  · simp [check_content_appropriateness, h1, h2, SafetyResult.verdict,
      SafetyResult.isAppropriate, SafetyResult.readingLevel]

/-- C2 witness: the three branches at concrete inputs. -/
theorem C2_witness :
    ((check_content_appropriateness "A scary monster with blood" 10).verdict = "rejected" ∧
      (check_content_appropriateness "A scary monster with blood" 10).isAppropriate = false) ∧
    ((check_content_appropriateness "A monster" 10).verdict = "flagged" ∧
      ((check_content_appropriateness "A monster" 10).isAppropriate = true ↔ 9 ≤ 10)) ∧
    ((check_content_appropriateness "hello" 6).verdict = "appropriate" ∧
      (check_content_appropriateness "hello" 6).isAppropriate = true ∧
      (check_content_appropriateness "hello" 6).readingLevel
        = some (if 6 < 7 then "Simple vocabulary, appropriate for early readers"
            else if 6 < 12 then "Appropriate vocabulary for middle-grade readers"
            else "Vocabulary suitable for young teens")) :=
  ⟨(C2_check_content_classification "A scary monster with blood" 10).1 (by decide),
   (C2_check_content_classification "A monster" 10).2.1 (by decide) (by decide),
   (C2_check_content_classification "hello" 6).2.2 (by decide) (by decide)⟩

/-- C2 counterexample: ages 6 and 7 are in the same Age Band (younger),
yet the reading-level label differs, so the label is not derived from the
Age Band. -/
theorem C2_counterexample_reading_level_not_band :
    age_group 6 = age_group 7 ∧
    (check_content_appropriateness "hello" 6).readingLevel
      ≠ (check_content_appropriateness "hello" 7).readingLevel := by
  exact ⟨rfl, by decide⟩

/-- C3 (amended): the matched-terms list contains exactly the matched
terms of the winning tier — all matched high-concern terms in a rejected
verdict, all matched mild-concern terms in a flagged verdict; matched
mild-concern terms are omitted from rejected verdicts.  The precedence
half of the original claim holds: with both tiers present the verdict is
rejected and every matched high-concern term is listed. -/
theorem C3_flagged_terms_winning_tier (content : String) (age : Nat) :
    (contains_inappropriate content = true →
      (check_content_appropriateness content age).flaggedTerms
        = inappropriate_words.filter (fun word => pyInLower word content)) ∧
    (contains_inappropriate content = false → contains_mild_concern content = true →
      (check_content_appropriateness content age).flaggedTerms
        = mild_concern_words.filter (fun word => pyInLower word content)) ∧
    (contains_inappropriate content = true → contains_mild_concern content = true →
      (check_content_appropriateness content age).verdict = "rejected" ∧
      ∀ w ∈ inappropriate_words, pyInLower w content = true →
        w ∈ (check_content_appropriateness content age).flaggedTerms) := by
  refine ⟨fun h => ?_, fun h1 h2 => ?_, fun h1 _ => ?_⟩
  · simp [check_content_appropriateness, h, SafetyResult.flaggedTerms]
  · simp [check_content_appropriateness, h1, h2, SafetyResult.flaggedTerms]
  · refine ⟨by simp [check_content_appropriateness, h1, SafetyResult.verdict], ?_⟩
    intro w hw hmatch
    simp [check_content_appropriateness, h1, SafetyResult.flaggedTerms,
      List.mem_filter, hw, hmatch]

/-- C3 witness: the rejected branch at the spec's precedence scenario. -/
theorem C3_witness :
    (check_content_appropriateness "A scary monster with blood" 10).flaggedTerms
        = inappropriate_words.filter
            (fun word => pyInLower word "A scary monster with blood") ∧
    "blood" ∈ (check_content_appropriateness "A scary monster with blood" 10).flaggedTerms :=
  ⟨(C3_flagged_terms_winning_tier "A scary monster with blood" 10).1 (by decide),
   ((C3_flagged_terms_winning_tier "A scary monster with blood" 10).2.2
      (by decide) (by decide)).2 "blood" (by decide) (by decide)⟩

/-- C3 counterexample: "A scary monster with blood" matches the mild term
"monster" and high terms, the verdict is rejected, but "monster" is not in
the matched-terms list — the list does not include terms of both tiers. -/
theorem C3_counterexample_mild_term_missing :
    (check_content_appropriateness "A scary monster with blood" 10).verdict = "rejected" ∧
    pyInLower "monster" "A scary monster with blood" = true ∧
    "monster" ∉ (check_content_appropriateness "A scary monster with blood" 10).flaggedTerms := by
  refine ⟨rfl, rfl, by decide⟩

/-- C4 (amended): the AR-encounters character-sum derivation is a total,
pure, order-independent function with `charSum "" = 0`; the
Family/Progress derivation is instead a decimal parse of the identifier
with the `family_` / `user_` markers replaced, which succeeds only on
numeric remainders and is order-dependent. -/
theorem C4_seed_derivation (s1 s2 : String) :
    (s1.data.Perm s2.data → charSum s1 = charSum s2) ∧
    charSum "" = 0 ∧
    familySeed "family_12" = .ok 12 ∧
    familySeed "family_abc" = .error (.valueError "0abc") := by
  refine ⟨fun h => ?_, rfl, by decide, by decide⟩
  unfold charSum
  exact (h.map Char.toNat).sum_eq

/-- C4 witness. -/
theorem C4_witness : charSum "ab" = charSum "ba" :=
  (C4_seed_derivation "ab" "ba").1 (List.Perm.swap 'b' 'a' [])

/-- C4 counterexample: the Family/Progress seed derivation is not
order-independent — `"family_12"` and `"family_21"` are character
permutations of each other with different seeds. -/
theorem C4_counterexample_family_seed_order_dependent :
    "family_12".data.Perm "family_21".data ∧
    familySeed "family_12" ≠ familySeed "family_21" := by
  constructor
  · rw [show ("family_12".data : List Char) = "family_".data ++ ['1', '2'] from rfl,
      show ("family_21".data : List Char) = "family_".data ++ ['2', '1'] from rfl]
    exact List.Perm.append_left _ (List.Perm.swap '2' '1' [])
  · decide

/-- C5 (amended): the seed of `generate_ar_encounters` is derived from
`route_id` alone (`sum(ord(c) for c in route_id)`), not combined with the
mode; each mode's output is independently reproducible, and the same
route under two different modes runs the identical seeded draw sequence —
the outputs differ only through the mode's archetype bank. -/
theorem C5_seed_ignores_mode (route_id m1 m2 : String) (child_age count : Nat)
    (s s1 s2 : RNG) :
    generate_ar_encounters route_id m1 child_age count s1
        = generate_ar_encounters route_id m1 child_age count s2 ∧
    (generate_ar_encounters route_id m1 child_age count s).1.map (fun e => e.difficulty)
        = (generate_ar_encounters route_id m2 child_age count s).1.map (fun e => e.difficulty) ∧
    (generate_ar_encounters route_id m1 child_age count s).2
        = (generate_ar_encounters route_id m2 child_age count s).2 := by
  have hlen : (encounterBank m1).length = (encounterBank m2).length := by
    rw [encounterBank_length, encounterBank_length]
  have hslen : (pySample (encounterBank m1) (min count (encounterBank m1).length)
        (rngSeed (charSum route_id))).1.length
      = (pySample (encounterBank m2) (min count (encounterBank m2).length)
        (rngSeed (charSum route_id))).1.length := by
    rw [pySample_length, pySample_length, hlen]
  have hssnd : (pySample (encounterBank m1) (min count (encounterBank m1).length)
        (rngSeed (charSum route_id))).2
      = (pySample (encounterBank m2) (min count (encounterBank m2).length)
        (rngSeed (charSum route_id))).2 := by
    rw [show min count (encounterBank m2).length = min count (encounterBank m1).length by
      rw [hlen]]
    exact pySample_snd_congr _ _ hlen
  have hcongr := arPostProcess_congr route_id m1 route_id m2
    (difficultyOptions child_age)
    (pySample (encounterBank m1) (min count (encounterBank m1).length)
      (rngSeed (charSum route_id))).1
    (pySample (encounterBank m2) (min count (encounterBank m2).length)
      (rngSeed (charSum route_id))).1
    0 0
    (pySample (encounterBank m1) (min count (encounterBank m1).length)
      (rngSeed (charSum route_id))).2 hslen
  refine ⟨rfl, ?_, ?_⟩
  · show (arPostProcess route_id m1 (difficultyOptions child_age)
        (pySample (encounterBank m1) (min count (encounterBank m1).length)
          (rngSeed (charSum route_id))).1 0
        (pySample (encounterBank m1) (min count (encounterBank m1).length)
          (rngSeed (charSum route_id))).2).1.map (fun e => e.difficulty)
      = (arPostProcess route_id m2 (difficultyOptions child_age)
        (pySample (encounterBank m2) (min count (encounterBank m2).length)
          (rngSeed (charSum route_id))).1 0
        (pySample (encounterBank m2) (min count (encounterBank m2).length)
          (rngSeed (charSum route_id))).2).1.map (fun e => e.difficulty)
    rw [← hssnd]
    exact hcongr.1
  · show (arPostProcess route_id m1 (difficultyOptions child_age)
        (pySample (encounterBank m1) (min count (encounterBank m1).length)
          (rngSeed (charSum route_id))).1 0
        (pySample (encounterBank m1) (min count (encounterBank m1).length)
          (rngSeed (charSum route_id))).2).2
      = (arPostProcess route_id m2 (difficultyOptions child_age)
        (pySample (encounterBank m2) (min count (encounterBank m2).length)
          (rngSeed (charSum route_id))).1 0
        (pySample (encounterBank m2) (min count (encounterBank m2).length)
          (rngSeed (charSum route_id))).2).2
    rw [← hssnd]
    exact hcongr.2

/-- C5 counterexample: the same route under the two different narrative
modes does not seed two different pseudo-random sequences — the seeded
difficulty draws and the final generator state coincide across modes. -/
theorem C5_counterexample_modes_share_sequence :
    ("history" : String) ≠ "fantasy" ∧
    (generate_ar_encounters "trail_1" "history" 13 8 (rngSeed 0)).1.map (fun e => e.difficulty)
      = (generate_ar_encounters "trail_1" "fantasy" 13 8 (rngSeed 0)).1.map (fun e => e.difficulty) ∧
    (generate_ar_encounters "trail_1" "history" 13 8 (rngSeed 0)).2
      = (generate_ar_encounters "trail_1" "fantasy" 13 8 (rngSeed 0)).2 :=
  ⟨by decide, by decide, by decide⟩

/-- C6: `generate_ar_encounters` returns exactly
`min count bank_size` encounters — all of `bank_size = 8` when the count
exceeds the bank — pairwise distinct (sampling without replacement). -/
theorem C6_sampling_bound (route_id narrative_mode : String)
    (child_age count : Nat) (s : RNG) :
    (generate_ar_encounters route_id narrative_mode child_age count s).1.length
        = min count (encounterBank narrative_mode).length ∧
    (encounterBank narrative_mode).length = 8 ∧
    (generate_ar_encounters route_id narrative_mode child_age count s).1.Nodup :=
  ⟨generate_ar_encounters_length route_id narrative_mode child_age count s,
   encounterBank_length narrative_mode,
   List.Nodup.of_map (fun e => e.title)
     (generate_ar_encounters_titles_nodup route_id narrative_mode child_age count s)⟩

/-- C7: ages below 8 always receive `easy` difficulty; ages 8–11 receive
only `easy` or `medium`, never `hard`; the spec's fantasy scenario at age
6 with count 10 over the 8-archetype bank yields 8 encounters, all easy. -/
theorem C7_age_difficulty_ceiling (route_id narrative_mode : String)
    (count : Nat) (s : RNG) (child_age : Nat) :
    (child_age < 8 →
      ∀ e ∈ (generate_ar_encounters route_id narrative_mode child_age count s).1,
        e.difficulty = some "easy") ∧
    (8 ≤ child_age → child_age < 12 →
      ∀ e ∈ (generate_ar_encounters route_id narrative_mode child_age count s).1,
        e.difficulty = some "easy" ∨ e.difficulty = some "medium") ∧
    ((generate_ar_encounters "trail_1" "fantasy" 6 10 s).1.length = 8 ∧
      ∀ e ∈ (generate_ar_encounters "trail_1" "fantasy" 6 10 s).1,
        e.difficulty = some "easy") := by
  have hyoung : ∀ (rid m : String) (c a : Nat), a < 8 →
      ∀ e ∈ (generate_ar_encounters rid m a c s).1, e.difficulty = some "easy" := by
    intro rid m c a ha e he
    obtain ⟨d, hd, hdiff⟩ := generate_ar_encounters_difficulty rid m a c s e he
    rw [difficultyOptions, if_pos ha] at hd
    simp only [List.mem_cons, List.not_mem_nil, or_false] at hd
    rcases hd with rfl | rfl <;> exact hdiff
  refine ⟨hyoung route_id narrative_mode count child_age, fun h8 h12 e he => ?_, ?_, ?_⟩
  · obtain ⟨d, hd, hdiff⟩ :=
      generate_ar_encounters_difficulty route_id narrative_mode child_age count s e he
    rw [difficultyOptions, if_neg (by omega), if_pos h12] at hd
    simp only [List.mem_cons, List.not_mem_nil, or_false] at hd
    rcases hd with rfl | rfl
    · exact Or.inl hdiff
    · exact Or.inr hdiff
  · rw [generate_ar_encounters_length, encounterBank_length]
    omega
  · exact hyoung "trail_1" "fantasy" 10 6 (by omega)

/-- C7 witness: concrete instances of every branch. -/
theorem C7_witness :
    (generate_ar_encounters "trail_1" "fantasy" 6 10 (rngSeed 0)).1.length = 8 ∧
    ((generate_ar_encounters "trail_1" "fantasy" 6 10 (rngSeed 0)).1.headI).difficulty
        = some "easy" ∧
    (((generate_ar_encounters "trail_9" "history" 9 5 (rngSeed 0)).1.headI).difficulty
        = some "easy" ∨
      ((generate_ar_encounters "trail_9" "history" 9 5 (rngSeed 0)).1.headI).difficulty
        = some "medium") :=
  ⟨(C7_age_difficulty_ceiling "trail_1" "fantasy" 10 (rngSeed 0) 6).2.2.1,
   (C7_age_difficulty_ceiling "trail_1" "fantasy" 10 (rngSeed 0) 6).1 (by decide)
     _ (by decide),
   (C7_age_difficulty_ceiling "trail_9" "history" 5 (rngSeed 0) 9).2.1 (by decide)
     (by decide) _ (by decide)⟩

/-- C8: every accepted family identifier yields a progress payload whose
total distance is exactly the sum of the per-route distances, whose
`total_routes` equals the number of completed routes, and whose number of
completed routes is between 3 and 10. -/
theorem C8_progress_consistency (family_id : String) (s : RNG)
    (p : FamilyProgress) (h : get_family_progress family_id s = .ok p) :
    p.total_distanceTenths
        = (p.completed_routes.map (fun r => r.distanceTenths)).sum ∧
    p.total_routes = p.completed_routes.length ∧
    3 ≤ p.total_routes ∧ p.total_routes ≤ 10 := by
  have hp : ∃ n, p = get_family_progress_core n := by
    unfold get_family_progress at h
    cases hf : familySeed family_id with
    | error e =>
      rw [hf] at h
      exact absurd h (by simp)
    | ok n =>
      rw [hf] at h
      simp only [Except.ok.injEq] at h
      exact ⟨n, h.symm⟩
  obtain ⟨n, rfl⟩ := hp
  exact get_family_progress_core_spec n

/-- C8 witness. -/
theorem C8_witness :
    (get_family_progress_core 7).total_distanceTenths
        = ((get_family_progress_core 7).completed_routes.map
            (fun r => r.distanceTenths)).sum ∧
    (get_family_progress_core 7).total_routes
        = (get_family_progress_core 7).completed_routes.length ∧
    3 ≤ (get_family_progress_core 7).total_routes ∧
    (get_family_progress_core 7).total_routes ≤ 10 :=
  C8_progress_consistency "family_7" (rngSeed 0) (get_family_progress_core 7) rfl

/-- C9 (amended): the `execute_safely` boundary wraps every exception into
a `ProviderError` carrying the provider and method names — but the
Family/Progress operations never route through it, so
`get_family_progress` propagates the raw `ValueError` for a non-numeric
identifier. -/
theorem C9_error_wrapping (provider method : String) :
    (∀ (α : Type) (r : Except PyErr α) (e : PyErr), r = .error e →
      executeSafely provider method r
        = .error (.providerError provider method e.wrappedMessage)) ∧
    get_family_progress "family_x" (rngSeed 0) = .error (.valueError "0x") := by
  refine ⟨fun α r e hr => ?_, rfl⟩
  subst hr
  cases e <;> rfl

/-- C9 witness. -/
theorem C9_witness :
    executeSafely "MockUsersProvider" "get_family_progress"
        (.error (.valueError "0x") : Except PyErr FamilyProgress)
      = .error (.providerError "MockUsersProvider" "get_family_progress"
          (PyErr.valueError "0x").wrappedMessage) ∧
    get_family_progress "family_x" (rngSeed 0) = .error (.valueError "0x") :=
  ⟨(C9_error_wrapping "MockUsersProvider" "get_family_progress").1
      FamilyProgress _ _ rfl,
   (C9_error_wrapping "MockUsersProvider" "get_family_progress").2⟩

/-- C9 counterexample: the error escaping `get_family_progress` for a
non-numeric family identifier is a raw `ValueError`, not the uniform
provider-error kind. -/
theorem C9_counterexample_raw_value_error :
    get_family_progress "family_x" (rngSeed 0) = .error (.valueError "0x") ∧
    (PyErr.valueError "0x").isProviderError = false :=
  ⟨rfl, rfl⟩

/-- C10 (amended): with no recorded history the result is the empty list;
with recorded history and `limit ≥ 1` the result is the most recent
`min limit len` entries in recording order; for `limit = 0` Python's
`history[-0:]` returns the entire history instead (see the
counterexample); and any statements after the unconditional return cannot
influence the result. -/
theorem C10_narrative_history (hist : List (String × List HistEntry))
    (user : String) (limit : Int) (history : List HistEntry) :
    (hist.lookup user = none →
      get_narrative_history_impl (hist, user, limit) = some (.entries [])) ∧
    (hist.lookup user = some history → 1 ≤ limit →
      get_narrative_history_impl (hist, user, limit)
        = some (.entries (history.drop
            (history.length - min limit.toNat history.length)))) ∧
    (∀ (dead : List (HistState → Option HistResult)) (st : HistState),
      runBody (histBody ++ dead) st = runBody histBody st) := by
  refine ⟨fun h => ?_, fun h hl => ?_, runBody_histBody_append⟩
  · simp [get_narrative_history_impl, runBody, histBody, histStmt1, h]
  · simp only [get_narrative_history_impl, histBody, runBody, histStmt1, histStmt2,
      h, Option.isNone_some, Bool.false_eq_true, if_false, Option.getD_some]
    split
    · rename_i hlt
      rw [pySliceFrom, if_pos (show -limit < 0 by omega),
        show (max 0 ((history.length : Int) + -limit)).toNat
            = history.length - min limit.toNat history.length by omega]
    · rename_i hge
      rw [show history.length - min limit.toNat history.length = 0 by omega,
        List.drop_zero]

/-- C10 witness. -/
theorem C10_witness :
    get_narrative_history_impl ([], "user_9", 10) = some (.entries []) ∧
    get_narrative_history_impl
        ([("user_1",
          [(⟨"route_1", "history", "2025-09-04T14:30:00Z", "The Old Forest Bridge"⟩ : HistEntry),
            (⟨"route_2", "fantasy", "2025-09-04T14:30:00Z", "The Dragon's Bridge"⟩ : HistEntry)])],
          "user_1", 1)
      = some (.entries
          (([(⟨"route_1", "history", "2025-09-04T14:30:00Z", "The Old Forest Bridge"⟩ : HistEntry),
            (⟨"route_2", "fantasy", "2025-09-04T14:30:00Z", "The Dragon's Bridge"⟩ : HistEntry)]
            : List HistEntry).drop (2 - min (Int.toNat 1) 2))) :=
  ⟨(C10_narrative_history [] "user_9" 10 []).1 rfl,
   (C10_narrative_history
      [("user_1",
        [(⟨"route_1", "history", "2025-09-04T14:30:00Z", "The Old Forest Bridge"⟩ : HistEntry),
          (⟨"route_2", "fantasy", "2025-09-04T14:30:00Z", "The Dragon's Bridge"⟩ : HistEntry)])]
      "user_1" 1
      [(⟨"route_1", "history", "2025-09-04T14:30:00Z", "The Old Forest Bridge"⟩ : HistEntry),
        (⟨"route_2", "fantasy", "2025-09-04T14:30:00Z", "The Dragon's Bridge"⟩ : HistEntry)]).2.1
     (by decide) (by decide)⟩

/-- C10 counterexample: at `limit = 0` the method returns the entire
recorded history (Python `history[-0:]` is the whole list), not
`min(limit, len) = 0` entries. -/
theorem C10_counterexample_limit_zero :
    get_narrative_history_impl
        ([("user_1",
          [(⟨"route_1", "history", "2025-09-04T14:30:00Z", "The Old Forest Bridge"⟩ : HistEntry)])],
          "user_1", 0)
      ≠ some (.entries
          (([(⟨"route_1", "history", "2025-09-04T14:30:00Z", "The Old Forest Bridge"⟩ : HistEntry)]
            : List HistEntry).drop (1 - min (Int.toNat 0) 1))) := by
  decide

end TrailTail
